import Mathlib

/-!
Verification of the `SVMLightDataset` adapter
(`kedro_datasets/svmlight/svmlight_dataset.py`).

The adapter composes three external capabilities: a versioned-path resolver,
a pluggable filesystem, and the svmlight codec.  We embed the adapter's own
code faithfully; the external collaborators (kedro's `get_protocol_and_path`,
`get_filepath_str`, the versioned path resolver of `AbstractVersionedDataset`,
fsspec, sklearn's codec) are not part of this repository's sources and are
modelled from the specification, each marked as such in its doc comment.
-/

set_option autoImplicit false

/-- A Python value, as far as the adapter's configuration handling needs it:
strings, booleans, `None`, and (nested) string-keyed dictionaries. -/
inductive PyVal where
  | str : String → PyVal
  | bool : Bool → PyVal
  | none : PyVal
  | dict : List (String × PyVal) → PyVal
deriving Repr

/-- A Python `dict` with string keys, represented as an association list;
the last binding of a key is its value (see `Dict.lookup`). -/
abbrev Dict := List (String × PyVal)

mutual

/-- Decidable equality on `PyVal` (hand-rolled because of the nesting). -/
def PyVal.beq : PyVal → PyVal → Bool
  | .str a, .str b => a == b
  | .bool a, .bool b => a == b
  | .none, .none => true
  | .dict a, .dict b => PyVal.beqList a b
  | _, _ => false

def PyVal.beqList : List (String × PyVal) → List (String × PyVal) → Bool
  | [], [] => true
  | (k₁, v₁) :: r₁, (k₂, v₂) :: r₂ => k₁ == k₂ && PyVal.beq v₁ v₂ && PyVal.beqList r₁ r₂
  | _, _ => false

end

instance : BEq PyVal := ⟨PyVal.beq⟩

mutual

theorem PyVal.beq_iff : ∀ a b : PyVal, PyVal.beq a b = true ↔ a = b
  | .str a, .str b => by simp [PyVal.beq]
  | .str _, .bool _ => by simp [PyVal.beq]
  | .str _, .none => by simp [PyVal.beq]
  | .str _, .dict _ => by simp [PyVal.beq]
  | .bool _, .str _ => by simp [PyVal.beq]
  | .bool a, .bool b => by simp [PyVal.beq]
  | .bool _, .none => by simp [PyVal.beq]
  | .bool _, .dict _ => by simp [PyVal.beq]
  | .none, .str _ => by simp [PyVal.beq]
  | .none, .bool _ => by simp [PyVal.beq]
  | .none, .none => by simp [PyVal.beq]
  | .none, .dict _ => by simp [PyVal.beq]
  | .dict _, .str _ => by simp [PyVal.beq]
  | .dict _, .bool _ => by simp [PyVal.beq]
  | .dict _, .none => by simp [PyVal.beq]
  | .dict a, .dict b => by
      simp only [PyVal.beq, PyVal.dict.injEq]
      exact PyVal.beqList_iff a b

theorem PyVal.beqList_iff : ∀ a b : List (String × PyVal),
    PyVal.beqList a b = true ↔ a = b
  | [], [] => by simp [PyVal.beqList]
  | [], _ :: _ => by simp [PyVal.beqList]
  | _ :: _, [] => by simp [PyVal.beqList]
  | (k₁, v₁) :: r₁, (k₂, v₂) :: r₂ => by
      simp only [PyVal.beqList, Bool.and_eq_true, beq_iff_eq]
      rw [PyVal.beq_iff v₁ v₂, PyVal.beqList_iff r₁ r₂]
      constructor
      · rintro ⟨⟨h₁, h₂⟩, h₃⟩
        simp [h₁, h₂, h₃]
      · rintro h
        injection h with h₁ h₂
        injection h₁ with hk hv
        exact ⟨⟨hk, hv⟩, h₂⟩

end

instance : DecidableEq PyVal := fun a b =>
  decidable_of_iff (PyVal.beq a b = true) (PyVal.beq_iff a b)

namespace Dict

/-- `d[key]` as an option.  Real Python dicts have unique keys; in this
association-list representation the LAST binding of a key is the dict's
value for it, so that appending a binding is observationally the same as
Python's in-place assignment. -/
def lookup : Dict → String → Option PyVal
  | [], _ => Option.none
  | (k, v) :: rest, key =>
      match lookup rest key with
      | some w => some w
      | Option.none => if k = key then some v else Option.none

/-- Python assignment `d[key] = v` (observationally, under `lookup`). -/
def insert (d : Dict) (key : String) (v : PyVal) : Dict := d ++ [(key, v)]

/-- `d.pop(key, default)` / `del d[key]`: remove every binding of `key`. -/
def erase (d : Dict) (key : String) : Dict :=
  d.filter (fun p => p.1 ≠ key)

/-- Python `d.setdefault(key, v)`: bind `v` only when `key` is absent. -/
def setdefault (d : Dict) (key : String) (v : PyVal) : Dict :=
  if (d.lookup key).isSome then d else d ++ [(key, v)]

/-- Python dict-splat merge `{**a, **b}`: `b`'s value wins on a shared key
(observationally, under last-binding-wins `lookup`). -/
def merge (a b : Dict) : Dict := a ++ b

@[simp] theorem lookup_nil (key : String) : lookup [] key = Option.none := rfl

theorem lookup_append (a b : Dict) (key : String) :
    lookup (a ++ b) key = ((b.lookup key).orElse (fun _ => a.lookup key)) := by
  induction a with
  | nil => cases h : lookup b key <;> simp [lookup, Option.orElse, h]
  | cons hd tl ih =>
      obtain ⟨k₀, v₀⟩ := hd
      show lookup ((k₀, v₀) :: (tl ++ b)) key = _
      rw [lookup]
      rw [ih]
      cases hb : lookup b key <;> cases ht : lookup tl key <;>
        simp [lookup, Option.orElse, hb, ht]

theorem lookup_merge (a b : Dict) (key : String) :
    (merge a b).lookup key = ((b.lookup key).orElse (fun _ => a.lookup key)) :=
  lookup_append a b key

theorem lookup_insert (d : Dict) (k key : String) (v : PyVal) :
    (d.insert k v).lookup key = if k = key then some v else d.lookup key := by
  rw [insert, lookup_append]
  by_cases hk : k = key
  · subst hk
    simp [lookup, Option.orElse]
  · have h1 : lookup [(k, v)] key = Option.none := by simp [lookup, hk]
    rw [h1]
    cases hd : d.lookup key <;> simp [Option.orElse, hd, hk]

theorem lookup_erase (d : Dict) (k key : String) :
    (d.erase k).lookup key = if k = key then Option.none else d.lookup key := by
  induction d with
  | nil => simp [erase, lookup]
  | cons hd tl ih =>
      obtain ⟨k₀, v₀⟩ := hd
      by_cases h₀ : k₀ = k
      · subst h₀
        have hfilter : erase ((k₀, v₀) :: tl) k₀ = erase tl k₀ := by
          simp [erase, List.filter_cons]
        rw [hfilter, ih]
        by_cases hk : k₀ = key
        · subst hk
          simp
        · simp only [if_neg hk]
          cases ht : lookup tl key <;> simp [lookup, ht, hk]
      · have hfilter : erase ((k₀, v₀) :: tl) k = (k₀, v₀) :: erase tl k := by
          simp [erase, List.filter_cons, h₀]
        rw [hfilter]
        show lookup ((k₀, v₀) :: erase tl k) key = _
        rw [lookup, ih]
        by_cases hk : k = key
        · subst hk
          have hne : ¬ k₀ = k := h₀
          simp [hne]
        · cases ht : lookup tl key <;> simp [lookup, ht, hk]

theorem lookup_setdefault (d : Dict) (k key : String) (v : PyVal) :
    (d.setdefault k v).lookup key =
      if k = key then ((d.lookup k).orElse (fun _ => some v)) else d.lookup key := by
  unfold setdefault
  by_cases hk : k = key
  · subst hk
    split
    · rename_i h
      obtain ⟨w, hw⟩ := Option.isSome_iff_exists.mp h
      simp [hw, Option.orElse]
    · rename_i h
      have hnone : d.lookup k = Option.none := Option.not_isSome_iff_eq_none.mp h
      rw [lookup_append]
      simp [hnone, lookup, Option.orElse]
  · split
    · simp [hk]
    · rw [lookup_append]
      have hkv : lookup [(k, v)] key = Option.none := by simp [lookup, hk]
      simp only [hkv, if_neg hk]
      cases hl : d.lookup key <;> simp [Option.orElse, hl]

end Dict

/-- `kedro.io.core.Version`: a pair of optional load / save version tokens. -/
structure Version where
  load : Option String
  save : Option String
deriving DecidableEq, Repr

/-- `kedro.io.core.DatasetError` as far as the adapter observes it: the
"no such version / dataset" resolution failure raised by the versioned-path
resolver and caught by `_exists`. -/
inductive DatasetError where
  | versionNotFound
deriving DecidableEq, Repr

/-- Split a character list at the first occurrence of `://`, returning the
scheme before it and the remainder after it. -/
def splitScheme : List Char → Option (List Char × List Char)
  | [] => Option.none
  | ':' :: '/' :: '/' :: rest => some ([], rest)
  | c :: rest => (splitScheme rest).map (fun p => (c :: p.1, p.2))

/-- Modelled from the spec: `get_protocol_and_path` (from `kedro.io.core`,
not part of this repository's sources) "determines protocol and bare path
from filepath"; the protocol is the filepath's scheme prefix such as
`s3://`, defaulting to the local-file protocol `file` when no prefix is
present. -/
def get_protocol_and_path (filepath : String) (_version : Option Version) :
    String × String :=
  match splitScheme filepath.data with
  | some (scheme, rest) => (String.mk scheme, String.mk rest)
  | Option.none => ("file", filepath)

/-- Modelled from the spec: `get_filepath_str` (from `kedro.io.core`, not
part of this repository's sources) produces the concrete string form of a
resolved path for the given protocol; non-local protocols keep their
scheme prefix. -/
def get_filepath_str (path protocol : String) : String :=
  if protocol = "file" then path else protocol ++ "://" ++ path

/-- Characters after the last `/`, accumulating the current component in
reverse. -/
def posixBasenameAux : List Char → List Char → List Char
  | [], acc => acc.reverse
  | '/' :: rest, _ => posixBasenameAux rest []
  | c :: rest, acc => posixBasenameAux rest (c :: acc)

/-- Last component of a POSIX path (used by the versioned-path resolver). -/
def posixBasename (p : String) : String :=
  String.mk (posixBasenameAux p.data [])

/-- Modelled from the spec: the versioned-path resolver "maps a logical
dataset path plus an optional version token to a concrete timestamped
storage path" distinct from the logical path. -/
def versionedPath (filepath tok : String) : String :=
  filepath ++ "/" ++ tok ++ "/" ++ posixBasename filepath

/-- Modelled from the spec: `_get_load_path` of the external
`AbstractVersionedDataset` base class "resolves the concrete load path via
the versioned-path resolver (fails with a resolution error if no valid
version can be determined)".  With no version selector the logical path is
used as is; with a selector, the explicit load token or else the latest
existing version (`latest`, what enumeration of existing versions finds)
is used, and a missing version raises the resolution error. -/
def resolveLoadPath (filepath : String) (version : Option Version)
    (latest : Option String) : Except DatasetError String :=
  match version with
  | Option.none => Except.ok filepath
  | some v =>
      match v.load.orElse (fun _ => latest) with
      | some tok => Except.ok (versionedPath filepath tok)
      | Option.none => Except.error DatasetError.versionNotFound

/-- Modelled from the spec: `_get_save_path` of the external
`AbstractVersionedDataset` base class "resolves the concrete save path via
the versioned-path resolver (auto-generates a new version token if none was
explicitly requested)".  `genTok` is the auto-generated token. -/
def resolveSavePath (filepath : String) (version : Option Version)
    (genTok : String) : String :=
  match version with
  | Option.none => filepath
  | some v => versionedPath filepath (v.save.getD genTok)

/-- The adapter's state after `__init__`: protocol, bare logical path,
version selector, the keyword arguments handed to `fsspec.filesystem`, and
the merged load/save/open-argument dictionaries. -/
structure SVMLightDataset where
  protocol : String
  filepath : String
  version : Option Version
  fsKwargs : Dict
  load_args : Dict
  save_args : Dict
  fs_open_args_load : Dict
  fs_open_args_save : Dict
  metadata : Option Dict
deriving DecidableEq, Repr

/-- `SVMLightDataset.DEFAULT_LOAD_ARGS`. -/
def DEFAULT_LOAD_ARGS : Dict := []

/-- `SVMLightDataset.DEFAULT_SAVE_ARGS`. -/
def DEFAULT_SAVE_ARGS : Dict := []

/-- `SVMLightDataset.DEFAULT_FS_ARGS`. -/
def DEFAULT_FS_ARGS : Dict :=
  [("open_args_save", PyVal.dict [("mode", PyVal.str "wb")]),
   ("open_args_load", PyVal.dict [("mode", PyVal.str "rb")])]

/-- Splatting a popped `open_args_load`/`open_args_save` value after
`(x or \x7b\x7d)`: a dict contributes its entries; falsy `None` (and the
absent-key default, the empty dict) contribute nothing.  A non-dict truthy
value would be a `TypeError` in Python and is outside the model. -/
def PyVal.asDictOrEmpty : PyVal → Dict
  | PyVal.dict d => d
  | _ => []

/-- A store of Python dict objects, addressed by reference.  It makes the
constructor's object identity explicit: `deepcopy` allocates a fresh
reference, and `pop`/`setdefault` mutate through a reference, so that
whether the caller's dict objects are left untouched is a provable
question rather than an artefact of value semantics. -/
structure DictStore where
  dicts : List Dict
deriving Repr

/-- Dereference; a dangling reference reads the empty dict. -/
def DictStore.read (σ : DictStore) (r : Nat) : Dict :=
  (σ.dicts[r]?).getD []

/-- Allocate a fresh dict object, returning its reference. -/
def DictStore.alloc (σ : DictStore) (d : Dict) : DictStore × Nat :=
  ({ dicts := σ.dicts ++ [d] }, σ.dicts.length)

/-- Overwrite the dict object behind a reference. -/
def DictStore.write (σ : DictStore) (r : Nat) (d : Dict) : DictStore :=
  { dicts := σ.dicts.set r d }

/-- `SVMLightDataset.__init__`, transcribed line by line.  The caller's
`credentials` and `fs_args` dicts are passed as references into the store
(`Option.none` models passing Python `None`); the result is the store after
construction and the constructed adapter state. -/
def SVMLightDataset.initRefs (σ0 : DictStore) (filepath : String)
    (load_args save_args : Option Dict) (version : Option Version)
    (credentials fs_args : Option Nat) (metadata : Option Dict) :
    DictStore × SVMLightDataset :=
  -- _fs_args = deepcopy(fs_args) or \x7b\x7d
  let a1 := σ0.alloc (match fs_args with | some r => σ0.read r | Option.none => [])
  let σ1 := a1.1
  let rFs := a1.2
  -- _fs_open_args_load = _fs_args.pop("open_args_load", \x7b\x7d)
  let fsOpenLoadVal := ((σ1.read rFs).lookup "open_args_load").getD (PyVal.dict [])
  let σ2 := σ1.write rFs ((σ1.read rFs).erase "open_args_load")
  -- _fs_open_args_save = _fs_args.pop("open_args_save", \x7b\x7d)
  let fsOpenSaveVal := ((σ2.read rFs).lookup "open_args_save").getD (PyVal.dict [])
  let σ3 := σ2.write rFs ((σ2.read rFs).erase "open_args_save")
  -- _credentials = deepcopy(credentials) or \x7b\x7d
  let a2 := σ3.alloc (match credentials with | some r => σ3.read r | Option.none => [])
  let σ4 := a2.1
  let rCred := a2.2
  -- protocol, path = get_protocol_and_path(filepath, version)
  let pp := get_protocol_and_path filepath version
  let protocol := pp.1
  let path := pp.2
  -- if protocol == "file": _fs_args.setdefault("auto_mkdir", True)
  let σ5 :=
    if protocol = "file" then
      σ4.write rFs ((σ4.read rFs).setdefault "auto_mkdir" (PyVal.bool true))
    else σ4
  -- self._fs = fsspec.filesystem(self._protocol, **_credentials, **_fs_args)
  let fsKwargs := Dict.merge (σ5.read rCred) (σ5.read rFs)
  (σ5,
   { protocol := protocol
     filepath := path
     version := version
     fsKwargs := fsKwargs
     metadata := metadata
     -- self._load_args = \x7b**DEFAULT_LOAD_ARGS, **(load_args or \x7b\x7d)\x7d
     load_args := Dict.merge DEFAULT_LOAD_ARGS (load_args.getD [])
     save_args := Dict.merge DEFAULT_SAVE_ARGS (save_args.getD [])
     -- self._fs_open_args_load =
     --   \x7b**DEFAULT_FS_ARGS.get("open_args_load", \x7b\x7d), **(_fs_open_args_load or \x7b\x7d)\x7d
     fs_open_args_load :=
       Dict.merge
         ((DEFAULT_FS_ARGS.lookup "open_args_load").getD (PyVal.dict [])).asDictOrEmpty
         fsOpenLoadVal.asDictOrEmpty
     fs_open_args_save :=
       Dict.merge
         ((DEFAULT_FS_ARGS.lookup "open_args_save").getD (PyVal.dict [])).asDictOrEmpty
         fsOpenSaveVal.asDictOrEmpty })

/-- `SVMLightDataset.__init__` as a pure value-level constructor: run the
reference-level transcription on a store holding fresh objects for the
caller's dicts. -/
def SVMLightDataset.init (filepath : String)
    (load_args save_args : Option Dict) (version : Option Version)
    (credentials fs_args : Option Dict) (metadata : Option Dict) :
    SVMLightDataset :=
  let σ : DictStore := { dicts := [credentials.getD [], fs_args.getD []] }
  (SVMLightDataset.initRefs σ filepath load_args save_args version
    (credentials.map (fun _ => 0)) (fs_args.map (fun _ => 1)) metadata).2

/-- Abstract byte contents of a file (what a codec writes / reads). -/
abbrev ByteSeq := List Nat

/-- The in-memory payload: a (feature-matrix, label-vector) pair, abstracted
to a dense matrix and an integer label vector. -/
abbrev DataPair := List (List Int) × List Int

/-- The externally observable actions the adapter performs against the
filesystem capability during one operation, in order. -/
inductive Event where
  | evOpen (path : String) (args : Dict)
  | evClose (path : String)
  | evInvalidate (path : String)
deriving DecidableEq, Repr

/-- The modelled filesystem: stored files and the set of paths whose
metadata the filesystem currently holds in its cache. -/
structure FSState where
  files : List (String × ByteSeq)
  cached : List String
deriving DecidableEq, Repr

/-- The filesystem's existence check `self._fs.exists(path)`. -/
def FSState.existsAt (fs : FSState) (p : String) : Bool :=
  (List.lookup p fs.files).isSome

/-- `self._fs.invalidate_cache(path)`: drop cached metadata for `path`. -/
def FSState.invalidate (fs : FSState) (p : String) : FSState :=
  { fs with cached := fs.cached.filter (fun q => q ≠ p) }

/-- Writing `bytes` at `p` (the effect of a completed write stream). -/
def FSState.put (fs : FSState) (p : String) (bytes : ByteSeq) : FSState :=
  { fs with files := (fs.files.filter (fun q => q.1 ≠ p)) ++ [(p, bytes)] }

/-- How `load()` can fail: path resolution, a missing file at open, or a
codec decode error. -/
inductive LoadError where
  | resolution (e : DatasetError)
  | fileNotFound (path : String)
  | codec (msg : String)
deriving DecidableEq, Repr

/-- The path `_invalidate_cache` invalidates: it is computed from
`self._filepath` — the LOGICAL, unversioned path — not from a resolved
load or save path. -/
def SVMLightDataset.invalidateCachePath (ds : SVMLightDataset) : String :=
  get_filepath_str ds.filepath ds.protocol

/-- `SVMLightDataset.load`, transcribed.  `latest` is what the external
resolver's version enumeration finds; `decode` is the external
`load_svmlight_file`, given the stream's bytes and `self._load_args`.
The returned event list is what the adapter did to the filesystem. -/
def SVMLightDataset.load (ds : SVMLightDataset) (fs : FSState)
    (latest : Option String)
    (decode : ByteSeq → Dict → Except String DataPair) :
    Except LoadError DataPair × List Event :=
  -- load_path = get_filepath_str(self._get_load_path(), self._protocol)
  match resolveLoadPath ds.filepath ds.version latest with
  | Except.error e => (Except.error (LoadError.resolution e), [])
  | Except.ok p =>
      let load_path := get_filepath_str p ds.protocol
      -- with self._fs.open(load_path, **self._fs_open_args_load) as fs_file:
      match List.lookup load_path fs.files with
      | Option.none =>
          -- a read-open of a missing file raises before any stream exists
          (Except.error (LoadError.fileNotFound load_path), [])
      | some bytes =>
          -- return load_svmlight_file(fs_file, **self._load_args)
          -- (the `with` block closes the stream on return and when the
          -- codec raises, before the error propagates)
          match decode bytes ds.load_args with
          | Except.error msg =>
              (Except.error (LoadError.codec msg),
               [Event.evOpen load_path ds.fs_open_args_load,
                Event.evClose load_path])
          | Except.ok d =>
              (Except.ok d,
               [Event.evOpen load_path ds.fs_open_args_load,
                Event.evClose load_path])

/-- `SVMLightDataset.save`, transcribed.  `genTok` is the version token the
external resolver auto-generates; `encode` is the external
`dump_svmlight_file`, given `(data[0], data[1])` and `self._save_args`,
producing the bytes it writes to the stream or a codec error.  Partial
writes of a failed save are not modelled (the spec promises no
transactional guarantee either way). -/
def SVMLightDataset.save (ds : SVMLightDataset) (fs : FSState)
    (data : DataPair) (genTok : String)
    (encode : DataPair → Dict → Except String ByteSeq) :
    Except String Unit × List Event × FSState :=
  -- save_path = get_filepath_str(self._get_save_path(), self._protocol)
  let save_path :=
    get_filepath_str (resolveSavePath ds.filepath ds.version genTok) ds.protocol
  -- with self._fs.open(save_path, **self._fs_open_args_save) as fs_file:
  --     dump_svmlight_file(data[0], data[1], fs_file, **self._save_args)
  match encode data ds.save_args with
  | Except.error msg =>
      -- the `with` block closes the stream; the codec error propagates and
      -- self._invalidate_cache() is never reached
      (Except.error msg,
       [Event.evOpen save_path ds.fs_open_args_save,
        Event.evClose save_path],
       fs)
  | Except.ok bytes =>
      -- the stream is closed, then self._invalidate_cache() runs
      (Except.ok Unit.unit,
       [Event.evOpen save_path ds.fs_open_args_save,
        Event.evClose save_path,
        Event.evInvalidate ds.invalidateCachePath],
       (fs.put save_path bytes).invalidate ds.invalidateCachePath)

/-- `SVMLightDataset._exists`, transcribed: the `DatasetError` raised by
load-path resolution is caught and turned into `false`; otherwise the
filesystem's existence check is consulted on the resolved load path. -/
def SVMLightDataset.dsExists (ds : SVMLightDataset) (fs : FSState)
    (latest : Option String) : Bool × FSState :=
  match resolveLoadPath ds.filepath ds.version latest with
  | Except.error _ => (false, fs)
  | Except.ok p => (fs.existsAt (get_filepath_str p ds.protocol), fs)

/-- Is there an `evClose p` somewhere in the trace? -/
def closeIn (p : String) : List Event → Bool
  | [] => false
  | Event.evClose q :: rest => if q = p then true else closeIn p rest
  | _ :: rest => closeIn p rest

/-- Every opened stream is closed later in the trace. -/
def streamsClosed : List Event → Bool
  | [] => true
  | Event.evOpen p _ :: rest => closeIn p rest && streamsClosed rest
  | _ :: rest => streamsClosed rest

/-- Number of cache invalidations in a trace. -/
def invalidateCount : List Event → Nat
  | [] => 0
  | Event.evInvalidate _ :: rest => invalidateCount rest + 1
  | _ :: rest => invalidateCount rest

theorem DictStore.length_write (σ : DictStore) (t : Nat) (d : Dict) :
    (σ.write t d).dicts.length = σ.dicts.length := by
  simp [DictStore.write]

theorem DictStore.length_alloc (σ : DictStore) (d : Dict) :
    (σ.alloc d).1.dicts.length = σ.dicts.length + 1 := by
  simp [DictStore.alloc]

theorem DictStore.alloc_ref (σ : DictStore) (d : Dict) :
    (σ.alloc d).2 = σ.dicts.length := rfl

theorem DictStore.read_write_of_ne (σ : DictStore) (t : Nat) (d : Dict)
    (r : Nat) (h : r ≠ t) : (σ.write t d).read r = σ.read r := by
  simp [DictStore.write, DictStore.read, List.getElem?_set_ne (fun he => h he.symm)]

theorem DictStore.read_alloc_of_lt (σ : DictStore) (d : Dict)
    (r : Nat) (h : r < σ.dicts.length) : (σ.alloc d).1.read r = σ.read r := by
  simp [DictStore.alloc, DictStore.read, List.getElem?_append_left h]

/-- The constructor does not disturb any dict object that existed before
it ran: `deepcopy` allocates fresh objects and the constructor's `pop` /
`setdefault` mutations act only on those. -/
theorem initRefs_preserves_store (σ0 : DictStore) (filepath : String)
    (load_args save_args : Option Dict) (version : Option Version)
    (credentials fs_args : Option Nat) (metadata : Option Dict)
    (r : Nat) (h : r < σ0.dicts.length) :
    ((SVMLightDataset.initRefs σ0 filepath load_args save_args version
        credentials fs_args metadata).1).read r = σ0.read r := by
  unfold SVMLightDataset.initRefs
  simp only [DictStore.alloc_ref]
  have hne1 : r ≠ σ0.dicts.length := Nat.ne_of_lt h
  have h1 : r < ((σ0.alloc (match fs_args with
      | some rr => σ0.read rr | Option.none => [])).1).dicts.length := by
    rw [DictStore.length_alloc]
    exact Nat.lt_succ_of_lt h
  split
  · rename_i hproto
    rw [DictStore.read_write_of_ne _ _ _ _ hne1]
    rw [DictStore.read_alloc_of_lt]
    · rw [DictStore.read_write_of_ne _ _ _ _ hne1,
          DictStore.read_write_of_ne _ _ _ _ hne1,
          DictStore.read_alloc_of_lt _ _ _ h]
    · rw [DictStore.length_write, DictStore.length_write, DictStore.length_alloc]
      exact Nat.lt_succ_of_lt h
  · rw [DictStore.read_alloc_of_lt]
    · rw [DictStore.read_write_of_ne _ _ _ _ hne1,
          DictStore.read_write_of_ne _ _ _ _ hne1,
          DictStore.read_alloc_of_lt _ _ _ h]
    · rw [DictStore.length_write, DictStore.length_write, DictStore.length_alloc]
      exact Nat.lt_succ_of_lt h

/-- The caller-supplied sub-map stored under `key` in `fs_args`
(the spec's "caller-supplied open_args_load / open_args_save sub-maps"). -/
def callerSubmap (fs_args : Option Dict) (key : String) : Dict :=
  (((fs_args.getD []).lookup key).getD (PyVal.dict [])).asDictOrEmpty

/-- The fs_args keys left over once the two reserved keys are extracted. -/
def remainingFsArgs (fs_args : Option Dict) : Dict :=
  ((fs_args.getD []).erase "open_args_load").erase "open_args_save"

/-- Value-level characterisation of the transcribed constructor: each
stored field of the adapter state, in terms of the caller's arguments. -/
theorem init_spec (filepath : String)
    (load_args save_args : Option Dict) (version : Option Version)
    (credentials fs_args : Option Dict) (metadata : Option Dict) :
    SVMLightDataset.init filepath load_args save_args version
        credentials fs_args metadata =
      { protocol := (get_protocol_and_path filepath version).1
        filepath := (get_protocol_and_path filepath version).2
        version := version
        fsKwargs :=
          Dict.merge (credentials.getD [])
            (if (get_protocol_and_path filepath version).1 = "file" then
               (remainingFsArgs fs_args).setdefault "auto_mkdir" (PyVal.bool true)
             else remainingFsArgs fs_args)
        load_args := Dict.merge DEFAULT_LOAD_ARGS (load_args.getD [])
        save_args := Dict.merge DEFAULT_SAVE_ARGS (save_args.getD [])
        fs_open_args_load :=
          Dict.merge [("mode", PyVal.str "rb")] (callerSubmap fs_args "open_args_load")
        fs_open_args_save :=
          Dict.merge [("mode", PyVal.str "wb")] (callerSubmap fs_args "open_args_save")
        metadata := metadata } := by
  have hkey : ∀ d : Dict,
      Dict.lookup (List.filter (fun p => !decide (p.1 = "open_args_load")) d)
          "open_args_save" = Dict.lookup d "open_args_save" := by
    intro d
    have h := Dict.lookup_erase d "open_args_load" "open_args_save"
    simp [Dict.erase] at h
    exact h
  cases credentials <;> cases fs_args <;>
    simp [SVMLightDataset.init, SVMLightDataset.initRefs, DictStore.read,
          DictStore.alloc, DictStore.write, DEFAULT_FS_ARGS, Dict.lookup,
          callerSubmap, remainingFsArgs, PyVal.asDictOrEmpty, hkey] <;>
    split <;>
    simp [Dict.erase, hkey]

/-- Keys other than the two reserved ones survive the extraction. -/
theorem remainingFsArgs_lookup (fs_args : Option Dict) (key : String)
    (h1 : key ≠ "open_args_load") (h2 : key ≠ "open_args_save") :
    (remainingFsArgs fs_args).lookup key = (fs_args.getD []).lookup key := by
  unfold remainingFsArgs
  rw [Dict.lookup_erase, Dict.lookup_erase]
  have g1 : ¬ "open_args_load" = key := fun h => h1 h.symm
  have g2 : ¬ "open_args_save" = key := fun h => h2 h.symm
  simp [g1, g2]

/-- The reserved keys are gone after extraction. -/
theorem remainingFsArgs_reserved (fs_args : Option Dict) :
    (remainingFsArgs fs_args).lookup "open_args_load" = Option.none
    ∧ (remainingFsArgs fs_args).lookup "open_args_save" = Option.none := by
  unfold remainingFsArgs
  rw [Dict.lookup_erase, Dict.lookup_erase, Dict.lookup_erase]
  simp

/-- Every stream `load()` opens is opened with exactly the stored
read-open-options. -/
theorem load_open_args (ds : SVMLightDataset) (fs : FSState)
    (latest : Option String) (decode : ByteSeq → Dict → Except String DataPair)
    (p : String) (args : Dict)
    (h : Event.evOpen p args ∈ (ds.load fs latest decode).2) :
    args = ds.fs_open_args_load := by
  rcases hres : resolveLoadPath ds.filepath ds.version latest with e | q
  · have ht : (ds.load fs latest decode).2 = [] := by
      simp [SVMLightDataset.load, hres]
    rw [ht] at h
    simp at h
  · rcases hfile : List.lookup (get_filepath_str q ds.protocol) fs.files with _ | bytes
    · have ht : (ds.load fs latest decode).2 = [] := by
        simp [SVMLightDataset.load, hres, hfile]
      rw [ht] at h
      simp at h
    · rcases hdec : decode bytes ds.load_args with msg | d
      · have ht : (ds.load fs latest decode).2 =
            [Event.evOpen (get_filepath_str q ds.protocol) ds.fs_open_args_load,
             Event.evClose (get_filepath_str q ds.protocol)] := by
          simp [SVMLightDataset.load, hres, hfile, hdec]
        rw [ht] at h
        simp at h
        exact h.2
      · have ht : (ds.load fs latest decode).2 =
            [Event.evOpen (get_filepath_str q ds.protocol) ds.fs_open_args_load,
             Event.evClose (get_filepath_str q ds.protocol)] := by
          simp [SVMLightDataset.load, hres, hfile, hdec]
        rw [ht] at h
        simp at h
        exact h.2

/-- Every stream `save()` opens is opened with exactly the stored
write-open-options. -/
theorem save_open_args (ds : SVMLightDataset) (fs : FSState) (data : DataPair)
    (genTok : String) (encode : DataPair → Dict → Except String ByteSeq)
    (p : String) (args : Dict)
    (h : Event.evOpen p args ∈ (ds.save fs data genTok encode).2.1) :
    args = ds.fs_open_args_save := by
  rcases henc : encode data ds.save_args with msg | bytes
  · have ht : (ds.save fs data genTok encode).2.1 =
        [Event.evOpen
          (get_filepath_str (resolveSavePath ds.filepath ds.version genTok) ds.protocol)
          ds.fs_open_args_save,
         Event.evClose
          (get_filepath_str (resolveSavePath ds.filepath ds.version genTok) ds.protocol)] := by
      simp [SVMLightDataset.save, henc]
    rw [ht] at h
    simp at h
    exact h.2
  · have ht : (ds.save fs data genTok encode).2.1 =
        [Event.evOpen
          (get_filepath_str (resolveSavePath ds.filepath ds.version genTok) ds.protocol)
          ds.fs_open_args_save,
         Event.evClose
          (get_filepath_str (resolveSavePath ds.filepath ds.version genTok) ds.protocol),
         Event.evInvalidate ds.invalidateCachePath] := by
      simp [SVMLightDataset.save, henc]
    rw [ht] at h
    simp at h
    exact h.2

/-- C1: For every construction of the adapter, the stored read-open-options
and write-open-options are the documented defaults (mode `rb` for load,
mode `wb` for save) shallow-merged with the caller-supplied
`open_args_load` / `open_args_save` sub-maps, defaults applied first and
caller values second; every stream `load()` / `save()` opens uses exactly
the stored options, so a caller-supplied `mode` key in either sub-map
replaces the default mode used by `load()` or `save()`. -/
theorem C1_open_args_merge (filepath : String)
    (load_args save_args : Option Dict) (version : Option Version)
    (credentials fs_args : Option Dict) (metadata : Option Dict)
    (fsSt : FSState) (latest : Option String)
    (decode : ByteSeq → Dict → Except String DataPair)
    (data : DataPair) (genTok : String)
    (encode : DataPair → Dict → Except String ByteSeq) :
    (SVMLightDataset.init filepath load_args save_args version credentials
        fs_args metadata).fs_open_args_load
      = Dict.merge [("mode", PyVal.str "rb")] (callerSubmap fs_args "open_args_load")
    ∧ (SVMLightDataset.init filepath load_args save_args version credentials
        fs_args metadata).fs_open_args_save
      = Dict.merge [("mode", PyVal.str "wb")] (callerSubmap fs_args "open_args_save")
    ∧ (∀ m, (callerSubmap fs_args "open_args_load").lookup "mode" = some m →
      (SVMLightDataset.init filepath load_args save_args version credentials
          fs_args metadata).fs_open_args_load.lookup "mode" = some m)
    ∧ (∀ m, (callerSubmap fs_args "open_args_save").lookup "mode" = some m →
      (SVMLightDataset.init filepath load_args save_args version credentials
          fs_args metadata).fs_open_args_save.lookup "mode" = some m)
    ∧ (∀ p args, Event.evOpen p args ∈
        ((SVMLightDataset.init filepath load_args save_args version credentials
            fs_args metadata).load fsSt latest decode).2 →
      args = (SVMLightDataset.init filepath load_args save_args version
          credentials fs_args metadata).fs_open_args_load)
    ∧ (∀ p args, Event.evOpen p args ∈
        ((SVMLightDataset.init filepath load_args save_args version credentials
            fs_args metadata).save fsSt data genTok encode).2.1 →
      args = (SVMLightDataset.init filepath load_args save_args version
          credentials fs_args metadata).fs_open_args_save) := by
  refine ⟨?_, ?_, ?_, ?_, ?_, ?_⟩
  · rw [init_spec]
  · rw [init_spec]
  · intro m hm
    rw [init_spec]
    simp [Dict.lookup_merge, hm, Option.orElse]
  · intro m hm
    rw [init_spec]
    simp [Dict.lookup_merge, hm, Option.orElse]
  · intro p args h
    exact load_open_args _ _ _ _ _ _ h
  · intro p args h
    exact save_open_args _ _ _ _ _ _ _ h

/-- C5: when the protocol derived from the filepath is the local-file
protocol, the `auto_mkdir` option handed to the filesystem constructor
defaults to true unless the caller supplied the key in `fs_args`, whose
value then wins; for non-local protocols no default is injected (the
constructor receives exactly credentials merged with the remaining
`fs_args`). -/
theorem C5_auto_mkdir (filepath : String)
    (load_args save_args : Option Dict) (version : Option Version)
    (credentials fs_args : Option Dict) (metadata : Option Dict) :
    ((get_protocol_and_path filepath version).1 = "file" →
      (fs_args.getD []).lookup "auto_mkdir" = Option.none →
      (SVMLightDataset.init filepath load_args save_args version credentials
          fs_args metadata).fsKwargs.lookup "auto_mkdir" = some (PyVal.bool true))
    ∧ (∀ v, (get_protocol_and_path filepath version).1 = "file" →
      (fs_args.getD []).lookup "auto_mkdir" = some v →
      (SVMLightDataset.init filepath load_args save_args version credentials
          fs_args metadata).fsKwargs.lookup "auto_mkdir" = some v)
    ∧ ((get_protocol_and_path filepath version).1 ≠ "file" →
      (SVMLightDataset.init filepath load_args save_args version credentials
          fs_args metadata).fsKwargs
        = Dict.merge (credentials.getD []) (remainingFsArgs fs_args)) := by
  have hrem : (remainingFsArgs fs_args).lookup "auto_mkdir"
      = (fs_args.getD []).lookup "auto_mkdir" :=
    remainingFsArgs_lookup fs_args "auto_mkdir" (by decide) (by decide)
  refine ⟨?_, ?_, ?_⟩
  · intro hproto hnone
    rw [init_spec]
    simp [hproto, Dict.lookup_merge, Dict.lookup_setdefault, hrem, hnone,
          Option.orElse]
  · intro v hproto hsome
    rw [init_spec]
    simp [hproto, Dict.lookup_merge, Dict.lookup_setdefault, hrem, hsome,
          Option.orElse]
  · intro hproto
    rw [init_spec]
    simp [hproto]

/-- C7: for an adapter constructed with no `fs_args`, every stream opened
by `load()` uses mode `rb` (binary read) and every stream opened by
`save()` uses mode `wb` (binary write). -/
theorem C7_default_modes (filepath : String)
    (load_args save_args : Option Dict) (version : Option Version)
    (credentials : Option Dict) (metadata : Option Dict)
    (fs : FSState) (latest : Option String)
    (decode : ByteSeq → Dict → Except String DataPair)
    (data : DataPair) (genTok : String)
    (encode : DataPair → Dict → Except String ByteSeq) :
    (∀ p args, Event.evOpen p args ∈
        ((SVMLightDataset.init filepath load_args save_args version credentials
            Option.none metadata).load fs latest decode).2 →
      args.lookup "mode" = some (PyVal.str "rb"))
    ∧ (∀ p args, Event.evOpen p args ∈
        ((SVMLightDataset.init filepath load_args save_args version credentials
            Option.none metadata).save fs data genTok encode).2.1 →
      args.lookup "mode" = some (PyVal.str "wb")) := by
  constructor
  · intro p args h
    have ha := load_open_args _ _ _ _ _ _ h
    rw [ha, init_spec]
    rfl
  · intro p args h
    have ha := save_open_args _ _ _ _ _ _ _ h
    rw [ha, init_spec]
    rfl

/-- C8: `exists()` is read-only and idempotent — it leaves the modelled
filesystem state unchanged and a second call with no intervening save or
release returns the same boolean. -/
theorem C8_exists_idempotent (ds : SVMLightDataset) (fs : FSState)
    (latest : Option String) :
    (ds.dsExists (ds.dsExists fs latest).2 latest).1 = (ds.dsExists fs latest).1
    ∧ (ds.dsExists fs latest).2 = fs := by
  rcases hres : resolveLoadPath ds.filepath ds.version latest with e | q <;>
    simp [SVMLightDataset.dsExists, hres]

/-- C3: `exists()` returns false rather than propagating the error when
load-path resolution fails with the "no such version / dataset" condition
(in particular for a versioned dataset with nothing saved yet), and when
resolution succeeds it returns exactly the filesystem's existence check on
the resolved load path. -/
theorem C3_exists_resolution (ds : SVMLightDataset) (fs : FSState)
    (latest : Option String) :
    (∀ e, resolveLoadPath ds.filepath ds.version latest = Except.error e →
      (ds.dsExists fs latest).1 = false)
    ∧ (∀ p, resolveLoadPath ds.filepath ds.version latest = Except.ok p →
      (ds.dsExists fs latest).1 = fs.existsAt (get_filepath_str p ds.protocol))
    ∧ (∀ v, ds.version = some v → v.load = Option.none → latest = Option.none →
      (ds.dsExists fs latest).1 = false) := by
  refine ⟨?_, ?_, ?_⟩
  · intro e he
    simp [SVMLightDataset.dsExists, he]
  · intro p hp
    simp [SVMLightDataset.dsExists, hp]
  · intro v hv hload hlatest
    have hres : resolveLoadPath ds.filepath ds.version latest
        = Except.error DatasetError.versionNotFound := by
      simp [resolveLoadPath, hv, hload, hlatest, Option.orElse]
    simp [SVMLightDataset.dsExists, hres]

/-- C4: in every `load()` and every `save(data)`, each byte stream the
adapter opens is closed later in the operation's own event trace — on
success and on codec failure — before the operation returns or its error
propagates. -/
theorem C4_streams_closed (ds : SVMLightDataset) (fs : FSState)
    (latest : Option String) (decode : ByteSeq → Dict → Except String DataPair)
    (data : DataPair) (genTok : String)
    (encode : DataPair → Dict → Except String ByteSeq) :
    streamsClosed (ds.load fs latest decode).2 = true
    ∧ streamsClosed (ds.save fs data genTok encode).2.1 = true := by
  constructor
  · rcases hres : resolveLoadPath ds.filepath ds.version latest with e | q
    · simp [SVMLightDataset.load, hres, streamsClosed]
    · rcases hfile : List.lookup (get_filepath_str q ds.protocol) fs.files with _ | bytes
      · simp [SVMLightDataset.load, hres, hfile, streamsClosed]
      · rcases hdec : decode bytes ds.load_args with msg | d <;>
          simp [SVMLightDataset.load, hres, hfile, hdec, streamsClosed, closeIn]
  · rcases henc : encode data ds.save_args with msg | bytes <;>
      simp [SVMLightDataset.save, henc, streamsClosed, closeIn]

/-- C2 as stated fails on the code: for a versioned dataset, a successful
save writes to the resolved versioned save path, but `_invalidate_cache`
computes its path from `self._filepath` — the logical, unversioned path —
so the path that was just written is NOT the path whose cached metadata is
invalidated. -/
theorem C2_counterexample :
    ((SVMLightDataset.init "data/x.svm" Option.none Option.none
        (some { load := Option.none, save := some "v1" }) Option.none
        Option.none Option.none).save
        { files := [], cached := [] } ([[1]], [1]) "gen"
        (fun _ _ => Except.ok [42])).1 = Except.ok Unit.unit
    ∧ get_filepath_str
        (resolveSavePath "data/x.svm" (some { load := Option.none, save := some "v1" }) "gen")
        "file" = "data/x.svm/v1/x.svm"
    ∧ Event.evInvalidate "data/x.svm" ∈
        ((SVMLightDataset.init "data/x.svm" Option.none Option.none
            (some { load := Option.none, save := some "v1" }) Option.none
            Option.none Option.none).save
            { files := [], cached := [] } ([[1]], [1]) "gen"
            (fun _ _ => Except.ok [42])).2.1
    ∧ Event.evInvalidate "data/x.svm/v1/x.svm" ∉
        ((SVMLightDataset.init "data/x.svm" Option.none Option.none
            (some { load := Option.none, save := some "v1" }) Option.none
            Option.none Option.none).save
            { files := [], cached := [] } ([[1]], [1]) "gen"
            (fun _ _ => Except.ok [42])).2.1
    ∧ ("data/x.svm" : String) ≠ "data/x.svm/v1/x.svm" := by
  refine ⟨rfl, rfl, ?_, ?_, by decide⟩
  · have htr : ((SVMLightDataset.init "data/x.svm" Option.none Option.none
        (some { load := Option.none, save := some "v1" }) Option.none
        Option.none Option.none).save
        { files := [], cached := [] } ([[1]], [1]) "gen"
        (fun _ _ => Except.ok [42])).2.1
        = [Event.evOpen "data/x.svm/v1/x.svm" [("mode", PyVal.str "wb")],
           Event.evClose "data/x.svm/v1/x.svm",
           Event.evInvalidate "data/x.svm"] := rfl
    rw [htr]
    simp
  · have htr : ((SVMLightDataset.init "data/x.svm" Option.none Option.none
        (some { load := Option.none, save := some "v1" }) Option.none
        Option.none Option.none).save
        { files := [], cached := [] } ([[1]], [1]) "gen"
        (fun _ _ => Except.ok [42])).2.1
        = [Event.evOpen "data/x.svm/v1/x.svm" [("mode", PyVal.str "wb")],
           Event.evClose "data/x.svm/v1/x.svm",
           Event.evInvalidate "data/x.svm"] := rfl
    rw [htr]
    decide

/-- C2 (amended): after every successful save — encode done and stream
closed — the adapter invalidates the cached metadata of exactly one path:
the logical, unversioned filepath that `_invalidate_cache` computes; when
no version selector is in use this path coincides with the resolved save
path that was just written. -/
theorem C2_invalidate_logical_path (ds : SVMLightDataset) (fs : FSState)
    (data : DataPair) (genTok : String)
    (encode : DataPair → Dict → Except String ByteSeq) (bytes : ByteSeq)
    (henc : encode data ds.save_args = Except.ok bytes) :
    (ds.save fs data genTok encode).2.1 =
      [Event.evOpen
        (get_filepath_str (resolveSavePath ds.filepath ds.version genTok) ds.protocol)
        ds.fs_open_args_save,
       Event.evClose
        (get_filepath_str (resolveSavePath ds.filepath ds.version genTok) ds.protocol),
       Event.evInvalidate ds.invalidateCachePath]
    ∧ invalidateCount (ds.save fs data genTok encode).2.1 = 1
    ∧ (ds.save fs data genTok encode).2.2.cached
        = fs.cached.filter (fun q => q ≠ ds.invalidateCachePath)
    ∧ (ds.version = Option.none →
        ds.invalidateCachePath
          = get_filepath_str (resolveSavePath ds.filepath ds.version genTok) ds.protocol) := by
  refine ⟨?_, ?_, ?_, ?_⟩
  · simp [SVMLightDataset.save, henc]
  · simp [SVMLightDataset.save, henc, invalidateCount]
  · simp [SVMLightDataset.save, henc, FSState.invalidate, FSState.put]
  · intro hv
    simp [SVMLightDataset.invalidateCachePath, resolveSavePath, hv]

/-- C6 as stated fails on the code: with the local-file protocol and no
caller-supplied `auto_mkdir`, the filesystem constructor receives an
`auto_mkdir` binding that is in neither the remaining `fs_args` keys nor
the credentials mapping, so the constructor kwargs are not EXACTLY the
remaining keys plus credentials. -/
theorem C6_counterexample :
    (SVMLightDataset.init "data/x.svm" Option.none Option.none Option.none
        Option.none
        (some [("open_args_load", PyVal.dict [("mode", PyVal.str "r")])])
        Option.none).fsKwargs.lookup "auto_mkdir" = some (PyVal.bool true)
    ∧ (remainingFsArgs
        (some [("open_args_load", PyVal.dict [("mode", PyVal.str "r")])])).lookup
        "auto_mkdir" = Option.none
    ∧ Dict.lookup [] "auto_mkdir" = Option.none := ⟨rfl, rfl, rfl⟩

/-- C6 (amended): the two reserved keys are extracted from `fs_args` before
the filesystem is constructed, and the constructor receives the credentials
mapping merged with the remaining `fs_args` keys — plus, for the local
protocol only, the injected `auto_mkdir` default; the reserved keys never
reach the constructor from `fs_args` (a binding for them in the kwargs can
come only from the credentials mapping). -/
theorem C6_reserved_keys_extracted (filepath : String)
    (load_args save_args : Option Dict) (version : Option Version)
    (credentials fs_args : Option Dict) (metadata : Option Dict) :
    (SVMLightDataset.init filepath load_args save_args version credentials
        fs_args metadata).fsKwargs
      = Dict.merge (credentials.getD [])
          (if (get_protocol_and_path filepath version).1 = "file" then
             (remainingFsArgs fs_args).setdefault "auto_mkdir" (PyVal.bool true)
           else remainingFsArgs fs_args)
    ∧ (SVMLightDataset.init filepath load_args save_args version credentials
        fs_args metadata).fsKwargs.lookup "open_args_load"
      = (credentials.getD []).lookup "open_args_load"
    ∧ (SVMLightDataset.init filepath load_args save_args version credentials
        fs_args metadata).fsKwargs.lookup "open_args_save"
      = (credentials.getD []).lookup "open_args_save"
    ∧ (credentials = Option.none →
        (SVMLightDataset.init filepath load_args save_args version credentials
            fs_args metadata).fsKwargs.lookup "open_args_load" = Option.none
        ∧ (SVMLightDataset.init filepath load_args save_args version credentials
            fs_args metadata).fsKwargs.lookup "open_args_save" = Option.none) := by
  have hload : (if (get_protocol_and_path filepath version).1 = "file" then
        (remainingFsArgs fs_args).setdefault "auto_mkdir" (PyVal.bool true)
      else remainingFsArgs fs_args).lookup "open_args_load" = Option.none := by
    split
    · rw [Dict.lookup_setdefault]
      simp [(remainingFsArgs_reserved fs_args).1]
    · exact (remainingFsArgs_reserved fs_args).1
  have hsave : (if (get_protocol_and_path filepath version).1 = "file" then
        (remainingFsArgs fs_args).setdefault "auto_mkdir" (PyVal.bool true)
      else remainingFsArgs fs_args).lookup "open_args_save" = Option.none := by
    split
    · rw [Dict.lookup_setdefault]
      simp [(remainingFsArgs_reserved fs_args).2]
    · exact (remainingFsArgs_reserved fs_args).2
  refine ⟨?_, ?_, ?_, ?_⟩
  · rw [init_spec]
  · rw [init_spec]
    simp [Dict.lookup_merge, hload, Option.orElse]
  · rw [init_spec]
    simp [Dict.lookup_merge, hsave, Option.orElse]
  · intro hc
    subst hc
    constructor
    · rw [init_spec]
      simp [Dict.lookup_merge, hload, Option.orElse]
    · rw [init_spec]
      simp [Dict.lookup_merge, hsave, Option.orElse]

/-- C9: the caller-supplied `fs_args` and `credentials` dict objects are
left unchanged by the constructor: the reserved-key pops and the
`auto_mkdir` injection act only on the deep copies `initRefs` allocates,
never on the caller's objects. -/
theorem C9_caller_dicts_unchanged (σ0 : DictStore) (filepath : String)
    (load_args save_args : Option Dict) (version : Option Version)
    (metadata : Option Dict) (rc rf : Nat)
    (hc : rc < σ0.dicts.length) (hf : rf < σ0.dicts.length) :
    ((SVMLightDataset.initRefs σ0 filepath load_args save_args version
        (some rc) (some rf) metadata).1).read rc = σ0.read rc
    ∧ ((SVMLightDataset.initRefs σ0 filepath load_args save_args version
        (some rc) (some rf) metadata).1).read rf = σ0.read rf :=
  ⟨initRefs_preserves_store σ0 filepath load_args save_args version
      (some rc) (some rf) metadata rc hc,
   initRefs_preserves_store σ0 filepath load_args save_args version
      (some rc) (some rf) metadata rf hf⟩

/-- C10: when the codec's encode routine raises during `save(data)`, the
error propagates to the caller, the stream is still closed, the modelled
filesystem is untouched, and no cache invalidation is performed — the
invalidation step runs only after a successful encode and stream close. -/
theorem C10_encode_error_no_invalidate (ds : SVMLightDataset) (fs : FSState)
    (data : DataPair) (genTok : String)
    (encode : DataPair → Dict → Except String ByteSeq) (msg : String)
    (henc : encode data ds.save_args = Except.error msg) :
    (ds.save fs data genTok encode).1 = Except.error msg
    ∧ invalidateCount (ds.save fs data genTok encode).2.1 = 0
    ∧ (ds.save fs data genTok encode).2.2 = fs
    ∧ (ds.save fs data genTok encode).2.1 =
        [Event.evOpen
          (get_filepath_str (resolveSavePath ds.filepath ds.version genTok) ds.protocol)
          ds.fs_open_args_save,
         Event.evClose
          (get_filepath_str (resolveSavePath ds.filepath ds.version genTok) ds.protocol)] := by
  refine ⟨?_, ?_, ?_, ?_⟩ <;> simp [SVMLightDataset.save, henc, invalidateCount]

/-- Witness for C1 at a concrete construction: a caller-supplied mode `r`
under `open_args_load` overrides the default `rb`. -/
theorem C1_open_args_merge_witness :
    (callerSubmap (some [("open_args_load", PyVal.dict [("mode", PyVal.str "r")])])
        "open_args_load").lookup "mode" = some (PyVal.str "r")
    ∧ (SVMLightDataset.init "data/x.svm" Option.none Option.none Option.none
        Option.none (some [("open_args_load", PyVal.dict [("mode", PyVal.str "r")])])
        Option.none).fs_open_args_load.lookup "mode" = some (PyVal.str "r") :=
  ⟨rfl,
   (C1_open_args_merge "data/x.svm" Option.none Option.none Option.none Option.none
      (some [("open_args_load", PyVal.dict [("mode", PyVal.str "r")])]) Option.none
      { files := [], cached := [] } Option.none (fun _ _ => Except.error "e")
      ([], []) "g" (fun _ _ => Except.error "e")).2.2.1 (PyVal.str "r") rfl⟩

/-- Witness for C2's amended theorem at a concrete versioned save. -/
theorem C2_invalidate_logical_path_witness :
    invalidateCount
      ((SVMLightDataset.init "data/x.svm" Option.none Option.none
          (some { load := Option.none, save := some "v1" }) Option.none Option.none
          Option.none).save { files := [], cached := [] } ([[1]], [1]) "gen"
          (fun _ _ => Except.ok [42])).2.1 = 1 :=
  (C2_invalidate_logical_path _ _ _ _ _ [42] rfl).2.1

/-- Witness for C3 at a concrete versioned adapter with nothing saved:
`exists()` is false rather than an error. -/
theorem C3_exists_resolution_witness :
    ((SVMLightDataset.init "data/x.svm" Option.none Option.none
        (some { load := Option.none, save := Option.none }) Option.none Option.none
        Option.none).dsExists { files := [], cached := [] } Option.none).1 = false :=
  (C3_exists_resolution _ _ _).1 DatasetError.versionNotFound rfl

/-- Witness for C5 at a concrete local-protocol construction with no
caller-supplied `auto_mkdir`. -/
theorem C5_auto_mkdir_witness :
    (SVMLightDataset.init "data/x.svm" Option.none Option.none Option.none
        Option.none Option.none Option.none).fsKwargs.lookup "auto_mkdir"
      = some (PyVal.bool true) :=
  (C5_auto_mkdir "data/x.svm" Option.none Option.none Option.none Option.none
      Option.none Option.none).1 rfl rfl

/-- Witness for C6's amended theorem: with no credentials, neither reserved
key reaches the filesystem constructor. -/
theorem C6_reserved_keys_extracted_witness :
    (SVMLightDataset.init "data/x.svm" Option.none Option.none Option.none
        Option.none (some [("open_args_load", PyVal.dict [("mode", PyVal.str "r")])])
        Option.none).fsKwargs.lookup "open_args_load" = Option.none
    ∧ (SVMLightDataset.init "data/x.svm" Option.none Option.none Option.none
        Option.none (some [("open_args_load", PyVal.dict [("mode", PyVal.str "r")])])
        Option.none).fsKwargs.lookup "open_args_save" = Option.none :=
  (C6_reserved_keys_extracted "data/x.svm" Option.none Option.none Option.none
      Option.none (some [("open_args_load", PyVal.dict [("mode", PyVal.str "r")])])
      Option.none).2.2.2 rfl

/-- Witness for C7 at a concrete load whose trace contains an open event. -/
theorem C7_default_modes_witness :
    Event.evOpen "data/x.svm" [("mode", PyVal.str "rb")] ∈
      ((SVMLightDataset.init "data/x.svm" Option.none Option.none Option.none
          Option.none Option.none Option.none).load
          { files := [("data/x.svm", [0])], cached := [] } Option.none
          (fun _ _ => Except.ok ([], []))).2
    ∧ Dict.lookup [("mode", PyVal.str "rb")] "mode" = some (PyVal.str "rb") := by
  have htr : ((SVMLightDataset.init "data/x.svm" Option.none Option.none Option.none
      Option.none Option.none Option.none).load
      { files := [("data/x.svm", [0])], cached := [] } Option.none
      (fun _ _ => Except.ok ([], []))).2
      = [Event.evOpen "data/x.svm" [("mode", PyVal.str "rb")],
         Event.evClose "data/x.svm"] := rfl
  have hmem : Event.evOpen "data/x.svm" [("mode", PyVal.str "rb")] ∈
      ((SVMLightDataset.init "data/x.svm" Option.none Option.none Option.none
          Option.none Option.none Option.none).load
          { files := [("data/x.svm", [0])], cached := [] } Option.none
          (fun _ _ => Except.ok ([], []))).2 := by
    rw [htr]
    exact List.mem_cons_self _ _
  exact ⟨hmem,
    (C7_default_modes "data/x.svm" Option.none Option.none Option.none
        Option.none Option.none { files := [("data/x.svm", [0])], cached := [] }
        Option.none (fun _ _ => Except.ok ([], [])) ([], []) "g"
        (fun _ _ => Except.error "e")).1 "data/x.svm" [("mode", PyVal.str "rb")] hmem⟩

/-- Witness for C9 at a concrete store holding the caller's two dicts. -/
theorem C9_caller_dicts_unchanged_witness :
    ((SVMLightDataset.initRefs
        { dicts := [[("token", PyVal.none)],
                    [("open_args_load", PyVal.dict [("mode", PyVal.str "r")]),
                     ("project", PyVal.str "p")]] }
        "data/x.svm" Option.none Option.none Option.none (some 0) (some 1)
        Option.none).1).read 0
      = DictStore.read
          { dicts := [[("token", PyVal.none)],
                      [("open_args_load", PyVal.dict [("mode", PyVal.str "r")]),
                       ("project", PyVal.str "p")]] } 0
    ∧ ((SVMLightDataset.initRefs
        { dicts := [[("token", PyVal.none)],
                    [("open_args_load", PyVal.dict [("mode", PyVal.str "r")]),
                     ("project", PyVal.str "p")]] }
        "data/x.svm" Option.none Option.none Option.none (some 0) (some 1)
        Option.none).1).read 1
      = DictStore.read
          { dicts := [[("token", PyVal.none)],
                      [("open_args_load", PyVal.dict [("mode", PyVal.str "r")]),
                       ("project", PyVal.str "p")]] } 1 :=
  C9_caller_dicts_unchanged _ "data/x.svm" Option.none Option.none Option.none
    Option.none 0 1 (by decide) (by decide)

/-- Witness for C10 at a concrete save whose encode fails. -/
theorem C10_encode_error_no_invalidate_witness :
    ((SVMLightDataset.init "data/x.svm" Option.none Option.none Option.none
        Option.none Option.none Option.none).save { files := [], cached := [] }
        ([], []) "g" (fun _ _ => Except.error "mismatch")).1
      = Except.error "mismatch"
    ∧ invalidateCount
        ((SVMLightDataset.init "data/x.svm" Option.none Option.none Option.none
            Option.none Option.none Option.none).save { files := [], cached := [] }
            ([], []) "g" (fun _ _ => Except.error "mismatch")).2.1 = 0 :=
  ⟨(C10_encode_error_no_invalidate _ _ _ _ _ "mismatch" rfl).1,
   (C10_encode_error_no_invalidate _ _ _ _ _ "mismatch" rfl).2.1⟩
